import Mathlib

/-!
# Verification of the SEAL intervention-generation pipeline

Shallow embedding, in Lean 4, of the core generation pipeline of the
`tillioss/seal` repository:

* `app/schemas/base.py` — request/response data model (pydantic);
* `app/llm/gateway.py` — `GeminiGateway.generate_intervention` (one-shot
  path), `StreamingModel.stream` and `build_prompt_and_model` (streaming
  path);
* `app/safety/guardrails.py` — `LLMSafetyValidator.validate_content` and
  `_clean_json`;
* `app/safety/config.py` — `SafetyConfig`;
* `app/prompts/intervention.py` — `InterventionPrompt.get_prompt`;
* `app/api/endpoints/stream.py` — `event_stream`;
* `app/main.py` — the `/score` endpoint handler.

Python floats are modelled as rationals (`ℚ`); Python exceptions as
`Except`/`Option` results; the external Gemini model calls as explicit
outcome parameters.  External-library behaviour that the code relies on
is modelled from the libraries' documented contracts: `json.loads`
(Python stdlib), `tenacity.retry` with `stop_after_attempt` /
`wait_exponential`, and FastAPI's request-validation handling (HTTP 422
on a body that fails pydantic validation, as also asserted by the
repository's own tests in `tests/unit/app/test_main.py`).
-/

set_option autoImplicit false

namespace Seal

/-! ## JSON values and a model of Python `json.loads`

`Json` is the value domain of parsed model output.  Numbers are modelled
as integers: the JSON documents handled in the verified claims contain
no fractional literals, and `pythonJsonLoads` deliberately rejects the
float fragment (a `.`/`e` after the digits) so that it never claims
success where our model would diverge from Python.
-/

inductive Json where
  | null : Json
  | bool (b : Bool) : Json
  | num (n : Int) : Json
  | str (s : String) : Json
  | arr (elems : List Json) : Json
  | obj (fields : List (String × Json)) : Json
  deriving Inhabited

/-- JSON whitespace accepted between tokens by Python's `json.loads`. -/
def isJsonWs (c : Char) : Bool :=
  c = ' ' || c = '\t' || c = '\n' || c = '\r'

/-- Skip leading JSON whitespace. -/
def skipWs : List Char → List Char
  | [] => []
  | c :: rest => if isJsonWs c then skipWs rest else c :: rest

/-- Parse a JSON string body (after the opening quote), up to the closing
quote.  Escape sequences and control characters are out of the modelled
fragment: a backslash makes the parse fail rather than diverge from
Python. -/
def parseStringBody : List Char → Option (String × List Char)
  | [] => none
  | c :: rest =>
    if c = '"' then some ("", rest)
    else if c = '\\' then none
    else match parseStringBody rest with
      | some (s, r) => some (String.mk (c :: s.toList), r)
      | none => none

/-- Digits of a nonnegative integer literal, most significant first. -/
def digitsToNat : List Char → Nat → Nat
  | [], acc => acc
  | c :: rest, acc => digitsToNat rest (acc * 10 + (c.toNat - '0'.toNat))

/-- Parse an integer JSON number.  A fractional part or exponent (the
float fragment of JSON, unused by the verified claims) makes the parse
fail. -/
def parseIntNumber (cs : List Char) : Option (Json × List Char) :=
  let (neg, cs') := match cs with
    | '-' :: rest => (true, rest)
    | _ => (false, cs)
  let digits := cs'.takeWhile (·.isDigit)
  let rest := cs'.dropWhile (·.isDigit)
  if digits.isEmpty then none
  else match rest with
    | '.' :: _ => none
    | 'e' :: _ => none
    | 'E' :: _ => none
    | _ =>
      let n : Int := Int.ofNat (digitsToNat digits 0)
      some (.num (if neg then -n else n), rest)

mutual

/-- Parse one JSON value.  `fuel` bounds the recursion depth; it is
always invoked with more fuel than the input length, so the `0` case is
unreachable on the inputs we evaluate. -/
def parseValue : Nat → List Char → Option (Json × List Char)
  | 0, _ => none
  | fuel + 1, cs =>
    match skipWs cs with
    | [] => none
    | 'n' :: 'u' :: 'l' :: 'l' :: rest => some (.null, rest)
    | 't' :: 'r' :: 'u' :: 'e' :: rest => some (.bool true, rest)
    | 'f' :: 'a' :: 'l' :: 's' :: 'e' :: rest => some (.bool false, rest)
    | '"' :: rest =>
      match parseStringBody rest with
      | some (s, r) => some (.str s, r)
      | none => none
    | '[' :: rest =>
      (match skipWs rest with
        | ']' :: r => some (.arr [], r)
        | cs2 => parseArrayItems fuel cs2 [])
    | '{' :: rest =>
      (match skipWs rest with
        | '}' :: r => some (.obj [], r)
        | cs2 => parseObjectItems fuel cs2 [])
    | cs' => parseIntNumber cs'

/-- Parse the remaining items of a nonempty JSON array. -/
def parseArrayItems : Nat → List Char → List Json → Option (Json × List Char)
  | 0, _, _ => none
  | fuel + 1, cs, acc =>
    match parseValue fuel cs with
    | none => none
    | some (v, rest) =>
      match skipWs rest with
      | ',' :: r2 => parseArrayItems fuel r2 (acc ++ [v])
      | ']' :: r2 => some (.arr (acc ++ [v]), r2)
      | _ => none

/-- Parse the remaining entries of a nonempty JSON object. -/
def parseObjectItems : Nat → List Char → List (String × Json) → Option (Json × List Char)
  | 0, _, _ => none
  | fuel + 1, cs, acc =>
    match skipWs cs with
    | '"' :: rest =>
      (match parseStringBody rest with
        | none => none
        | some (k, r1) =>
          match skipWs r1 with
          | ':' :: r2 =>
            (match parseValue fuel r2 with
              | none => none
              | some (v, r3) =>
                match skipWs r3 with
                | ',' :: r4 => parseObjectItems fuel r4 (acc ++ [(k, v)])
                | '}' :: r4 => some (.obj (acc ++ [(k, v)]), r4)
                | _ => none)
          | _ => none)
    | _ => none

end

/-- Model of Python `json.loads` on the integer/strings/arrays/objects
fragment of JSON: parses one value and requires only whitespace to
follow (trailing data is an error, as in Python). -/
def pythonJsonLoads (s : String) : Option Json :=
  match parseValue (s.length + 1) s.toList with
  | some (v, rest) => if (skipWs rest).isEmpty then some v else none
  | none => none

/-- Python truthiness of a parsed JSON value (`if is_safe:`): `None`,
`False`, `0`, `""`, `[]` and `{}` are falsy. -/
def jsonTruthy : Json → Bool
  | .null => false
  | .bool b => b
  | .num n => n ≠ 0
  | .str s => s ≠ ""
  | .arr l => !l.isEmpty
  | .obj l => !l.isEmpty

/-- `dict.get(key, default)` on a parsed JSON object's field list (first
binding wins, as Python objects parsed by `json.loads` keep the last
duplicate only — the inputs used here have no duplicate keys). -/
def jsonGetD (fields : List (String × Json)) (key : String) (dflt : Json) : Json :=
  match fields.find? (fun kv => kv.1 = key) with
  | some kv => kv.2
  | none => dflt

/-! ## Python string helpers used by the extraction code -/

/-- Whitespace stripped by Python `str.strip()`. -/
def isPyWs (c : Char) : Bool :=
  c = ' ' || c = '\t' || c = '\n' || c = '\r' || c = '\x0b' || c = '\x0c'

/-- Python `str.strip()`. -/
def pyStrip (s : String) : String :=
  String.mk (((s.toList.dropWhile isPyWs).reverse.dropWhile isPyWs).reverse)

/-- Python `str.find(c)`: index of the first occurrence, `-1` if absent. -/
def pyFind (s : String) (c : Char) : Int :=
  match s.toList.findIdx? (· = c) with
  | some i => Int.ofNat i
  | none => -1

/-- Python `str.rfind(c)`: index of the last occurrence, `-1` if absent. -/
def pyRfind (s : String) (c : Char) : Int :=
  match s.toList.reverse.findIdx? (· = c) with
  | some i => Int.ofNat (s.length - 1 - i)
  | none => -1

/-- Python slice `s[a:b]` for `0 ≤ a` (the only case the code reaches). -/
def pySlice (s : String) (a b : Int) : String :=
  String.mk ((s.toList.drop a.toNat).take (b.toNat - a.toNat))

/-! ## Response extraction — `GeminiGateway.generate_intervention`,
`app/llm/gateway.py` lines 126–141

The gateway first calls `json.loads` on the raw response text; on
`JSONDecodeError` it takes the substring from the first `'\x7b'` to the
last `'\x7d'` (inclusive) and parses that; if the braces are not found in
the right order it raises `ValueError("Could not find valid JSON in
response: " + text)`, carrying the raw text.  A failure of the second
parse propagates as `JSONDecodeError` (surfaced at line 182–184 as
`ValueError("Could not parse JSON from response: ...")`). -/

inductive ExtractErr where
  /-- second `json.loads` failed: `Could not parse JSON from response` -/
  | decodeError : ExtractErr
  /-- no brace pair found: `Could not find valid JSON in response: {raw}`,
  carrying the raw text -/
  | noJson (raw : String) : ExtractErr
  deriving DecidableEq

/-- Lines 126–141 of `app/llm/gateway.py`: strict parse, then
first-brace/last-brace substring parse, else error carrying the raw
text. -/
def extractJson (text : String) : Except ExtractErr Json :=
  match pythonJsonLoads text with
  | some v => .ok v
  | none =>
    let start := pyFind text '{'
    let stop := pyRfind text '}' + 1
    if 0 ≤ start ∧ start < stop then
      match pythonJsonLoads (pySlice text start stop) with
      | some v => .ok v
      | none => .error .decodeError
    else .error (.noJson text)

/-! ## Safety validation — `app/safety/guardrails.py`, `app/safety/config.py` -/

/-- `SafetyConfig` from `app/safety/config.py`. -/
structure SafetyConfig where
  enabled : Bool
  include_violation_details : Bool
  deriving DecidableEq

/-- `DEFAULT_SAFETY_CONFIG = SafetyConfig()` (enabled, details hidden). -/
def DEFAULT_SAFETY_CONFIG : SafetyConfig := ⟨true, false⟩

/-- `DEV_SAFETY_CONFIG` (enabled, details shown). -/
def DEV_SAFETY_CONFIG : SafetyConfig := ⟨true, true⟩

/-- `SafetyViolation` dataclass.  Python stores whatever object
`result.get(...)` returned, so the fields are `Json` values; the
generic messages are the string literals from the source. -/
structure SafetyViolation where
  message : Json
  suggestion : Json

/-- Outcome of one `self.model.generate_content(prompt)` call made by the
safety validator: the external model either raises or returns text. -/
inductive ModelCall where
  | raises (msg : String) : ModelCall
  | returns (text : String) : ModelCall

/-- `LLMSafetyValidator._clean_json` (lines 94–108): strip, remove a
leading code fence and optional `json` tag, remove a trailing fence,
then cut from the first `'\x7b'` to the last `'\x7d'` inclusive if both
exist in that order, else return the stripped text.  Implemented over
`List Char` (Python strings are character sequences). -/
def cleanJson (text : String) : String :=
  let t1 := ((text.toList.dropWhile isPyWs).reverse.dropWhile isPyWs).reverse
  let t2 := if "```".toList.isPrefixOf t1 then t1.drop 3 else t1
  let t3 := if "json".toList.isPrefixOf t2 then t2.drop 4 else t2
  let t4 := if "```".toList.reverse.isPrefixOf t3.reverse then t3.take (t3.length - 3) else t3
  let start := pyFind (String.mk t4) '{'
  let fin := pyRfind (String.mk t4) '}'
  if 0 ≤ start ∧ start < fin then pySlice (String.mk t4) start (fin + 1)
  else String.mk ((t4.dropWhile isPyWs).reverse.dropWhile isPyWs).reverse

/-- `LLMSafetyValidator.validate_content` (lines 61–92). When the audit
is disabled it returns `(True, None)` unconditionally.  Otherwise: an
exception from the model call, or a `json.loads` failure on the cleaned
text, or a non-dict parse result (whose `.get` raises
`AttributeError`), is caught by the `except Exception` clause and
yields `(False, SafetyViolation("Safety validation failed", "Contact
administrator"))`; empty response text yields `(False,
SafetyViolation("Safety validation failed", "Retry the request"))`;
a parsed dict is consulted via `result.get("is_safe", False)` under
Python truthiness. -/
def validateContent (cfg : SafetyConfig) (call : ModelCall) :
    Bool × Option SafetyViolation :=
  if !cfg.enabled then (true, none)
  else
    match call with
    | .raises _ =>
      (false, some ⟨.str "Safety validation failed", .str "Contact administrator"⟩)
    | .returns text =>
      if text = "" then
        (false, some ⟨.str "Safety validation failed", .str "Retry the request"⟩)
      else
        match pythonJsonLoads (cleanJson text) with
        | some (.obj fields) =>
          if jsonTruthy (jsonGetD fields "is_safe" (.bool false)) then (true, none)
          else
            (false, some ⟨jsonGetD fields "reason" (.str "Content not appropriate for children"),
                          jsonGetD fields "suggestion" (.str "Review and revise content")⟩)
        | _ =>
          (false, some ⟨.str "Safety validation failed", .str "Contact administrator"⟩)

/-! ## Request data model — `app/schemas/base.py` -/

/-- `EMTScores`: four lists of scores (pydantic `List[float]`). -/
structure EMTScores where
  EMT1 : List ℚ
  EMT2 : List ℚ
  EMT3 : List ℚ
  EMT4 : List ℚ

/-- The `validate_scores` validator: every score in `[0, 100]`.  An
empty list passes (the `all` is vacuous). -/
def emtScoresValid (s : EMTScores) : Prop :=
  (∀ x ∈ s.EMT1, 0 ≤ x ∧ x ≤ 100) ∧ (∀ x ∈ s.EMT2, 0 ≤ x ∧ x ≤ 100) ∧
  (∀ x ∈ s.EMT3, 0 ≤ x ∧ x ≤ 100) ∧ (∀ x ∈ s.EMT4, 0 ≤ x ∧ x ≤ 100)

/-- `ClassMetadata`. -/
structure ClassMetadata where
  class_id : String
  deficient_area : String
  num_students : Int

/-- The `validate_deficient_area` validator. -/
def classMetadataValid (m : ClassMetadata) : Prop :=
  m.deficient_area = "EMT1" ∨ m.deficient_area = "EMT2" ∨
  m.deficient_area = "EMT3" ∨ m.deficient_area = "EMT4"

/-- `InterventionRequest`. -/
structure InterventionRequest where
  scores : EMTScores
  metadata : ClassMetadata

/-! ## Per-dimension averages — one-shot vs. streaming path -/

/-- Arithmetic mean `sum(l) / len(l)` (only meaningful for nonempty `l`). -/
def listMean (l : List ℚ) : ℚ :=
  l.sum / l.length

/-- The `prompt_data` dict of `GeminiGateway.generate_intervention`
(lines 93–101): `sum(scores.EMTi) / len(scores.EMTi)` with **no guard
for empty lists**.  An empty list raises `ZeroDivisionError("division
by zero")`, which the `except Exception` clause at lines 185–187
rewraps into `ValueError("Failed to generate intervention: division by
zero")`.  The four entries are evaluated in order EMT1..EMT4, so the
first empty list raises. -/
def promptDataAveragesOneShot (s : EMTScores) : Except String (ℚ × ℚ × ℚ × ℚ) :=
  if s.EMT1.isEmpty then .error "Failed to generate intervention: division by zero"
  else if s.EMT2.isEmpty then .error "Failed to generate intervention: division by zero"
  else if s.EMT3.isEmpty then .error "Failed to generate intervention: division by zero"
  else if s.EMT4.isEmpty then .error "Failed to generate intervention: division by zero"
  else .ok (listMean s.EMT1, listMean s.EMT2, listMean s.EMT3, listMean s.EMT4)

/-- One average on the streaming path (`build_prompt_and_model`, lines
267–270): `sum(l) / len(l) if l else 0.0`. -/
def streamAvg (l : List ℚ) : ℚ :=
  if l.isEmpty then 0 else listMean l

/-- The `prompt_data` dict of `build_prompt_and_model` (lines 263–271):
all four averages are guarded, so the computation is total. -/
def promptDataAveragesStreaming (s : EMTScores) : ℚ × ℚ × ℚ × ℚ :=
  (streamAvg s.EMT1, streamAvg s.EMT2, streamAvg s.EMT3, streamAvg s.EMT4)

/-! ## Streaming frames — `app/api/endpoints/stream.py` -/

/-- One server-sent-event frame produced by `event_stream`: either
`data: \x7b"token": chunk\x7d` or the terminal
`data: \x7b"status": "complete"\x7d`. -/
inductive Frame where
  | token (chunk : String) : Frame
  | complete : Frame
  deriving DecidableEq

/-- `event_stream` (lines 17–26): one token frame per chunk yielded by
`model.stream`, in arrival order, then exactly one complete frame. -/
def eventStream : List String → List Frame
  | [] => [.complete]
  | c :: rest => .token c :: eventStream rest

/-- `StreamingModel.stream` (lines 217–238): forwards each provider
chunk whose text is truthy (`if chunk.text:`), skipping empty chunks. -/
def streamingModelChunks (providerChunks : List String) : List String :=
  providerChunks.filter (fun c => c ≠ "")

/-! ## Canonical plan schema — `app/schemas/base.py` lines 49–65 -/

/-- `InterventionStrategy`. -/
structure InterventionStrategy where
  activity : String
  implementation : List String
  expected_outcomes : List String
  time_allocation : String
  resources : List String
  deriving DecidableEq

/-- `SuccessMetrics`. -/
structure SuccessMetrics where
  quantitative : List String
  qualitative : List String
  assessment_methods : List String
  deriving DecidableEq

/-- `InterventionPlan` field data.  `timeline` is a Python dict
(insertion-ordered association list with unique keys). -/
structure InterventionPlan where
  analysis : String
  strategies : List InterventionStrategy
  timeline : List (String × List String)
  success_metrics : SuccessMetrics
  deriving DecidableEq

/-- The pydantic validation applied when `InterventionPlan(**d)` is
constructed: `strategies` carries `Field(..., min_items=1,
max_items=5)`; its list length must lie in `[1, 5]`.  All other
constraints of the model are typing, which the Lean structure already
enforces. -/
def interventionPlanValid (p : InterventionPlan) : Bool :=
  1 ≤ p.strategies.length && p.strategies.length ≤ 5

/-- `InterventionPlan(**d)`: returns the validated plan or raises
`pydantic.ValidationError` (a `ValueError` subclass) naming the
violated field. -/
def mkInterventionPlan (p : InterventionPlan) : Except String InterventionPlan :=
  if interventionPlanValid p then .ok p
  else .error "validation error for InterventionPlan: strategies"

/-! ## Provider response shape and `ShapeTransformer` —
`app/llm/gateway.py` lines 151–172

The parsed provider JSON is represented structurally, exactly as the
dict-comprehension code accesses it: required keys (`classId`,
`numberOfStudents`, `deficientArea`, `strategies`, `timeline`,
`overallSuccessMetrics`, and `week` inside a timeline entry) are
structure fields; keys read through `.get(key, default)` are `Option`
fields. -/

/-- One entry of the provider's `strategies` list. -/
structure ProviderStrategy where
  title : Option String
  implementationPlan : Option (List String)
  successMetrics : Option (List String)
  deriving DecidableEq

/-- One entry of the provider's `timeline` list; `week['week']` is a
required key, `activities` is read with a default. -/
structure ProviderWeek where
  week : Int
  activities : Option (List String)
  deriving DecidableEq

/-- The provider response object as accessed by the transformation. -/
structure ProviderResponse where
  classId : String
  numberOfStudents : Int
  deficientArea : String
  strategies : List ProviderStrategy
  timeline : List ProviderWeek
  overallSuccessMetrics : List String
  deriving DecidableEq

/-- Insert one binding into a Python dict modelled as an
insertion-ordered association list: an existing key keeps its position
and gets the new value, a new key is appended. -/
def pyDictInsert (m : List (String × List String)) (k : String) (v : List String) :
    List (String × List String) :=
  if m.any (fun kv => kv.1 = k) then
    m.map (fun kv => if kv.1 = k then (k, v) else kv)
  else m ++ [(k, v)]

/-- A Python dict comprehension over a list of key/value pairs. -/
def pyDict (l : List (String × List String)) : List (String × List String) :=
  l.foldl (fun m kv => pyDictInsert m kv.1 kv.2) []

/-- The `intervention_plan` dict built at lines 151–172: analysis text
synthesised from identifier fields; each strategy renamed into the
canonical field set with constant `time_allocation` and `resources`;
the timeline dict comprehension `"week" + str(week['week']) ↦
week.get("activities", [])`; success metrics partitioned by the
percentage marker, with a constant `assessment_methods` list. -/
def transformResponse (r : ProviderResponse) : InterventionPlan where
  analysis :=
    "Analysis for class " ++ r.classId ++ " with " ++ toString r.numberOfStudents ++
      " students focusing on " ++ r.deficientArea ++ "."
  strategies := r.strategies.map (fun s =>
    { activity := s.title.getD ""
      implementation := s.implementationPlan.getD []
      expected_outcomes := s.successMetrics.getD []
      time_allocation := "30 minutes per session"
      resources := ["Emotion cards", "Activity materials"] })
  timeline := pyDict (r.timeline.map (fun w => ("week" ++ toString w.week, w.activities.getD [])))
  success_metrics :=
    { quantitative := r.overallSuccessMetrics.filter (fun m => m.contains '%')
      qualitative := r.overallSuccessMetrics.filter (fun m => !(m.contains '%'))
      assessment_methods := ["Weekly assessments", "Observation records", "Student feedback"] }

/-! ## One-shot pipeline — `GeminiGateway.generate_intervention`

The two external model calls are explicit outcome parameters: the
generation call is abstracted post-extraction (its string-level stages
`response.text`/`json.loads` are verified separately through
`extractJson`), the audit call is the raw `ModelCall` consumed by
`validateContent`.  Every failure inside the method body is rewrapped
by the `except Exception` clause into `ValueError("Failed to generate
intervention: ...")`. -/

/-- Outcome of the generation call as seen by the transformation stage:
either some exception was raised on the way to a parsed response
(provider fault, empty text, extraction failure, missing key), or a
parsed provider object is available. -/
inductive ProviderOutcome where
  | raises (msg : String) : ProviderOutcome
  | returns (resp : ProviderResponse) : ProviderOutcome

/-- Python `str()` of a parsed JSON value (used to format a safety
violation message into the raised error string).  Lists/dicts render in
`repr` style; only the string case is exercised by the claims. -/
def pyStr : Json → String
  | .null => "None"
  | .bool b => if b then "True" else "False"
  | .num n => toString n
  | .str s => s
  | .arr l => "[" ++ String.intercalate ", " (l.map pyReprAux) ++ "]"
  | .obj l => "\x7b" ++ String.intercalate ", "
      (l.map (fun kv => "\x27" ++ kv.1 ++ "\x27: " ++ pyReprAux kv.2)) ++ "\x7d"
where
  /-- `repr()` of an element inside a container. -/
  pyReprAux : Json → String
    | .null => "None"
    | .bool b => if b then "True" else "False"
    | .num n => toString n
    | .str s => "\x27" ++ s ++ "\x27"
    | .arr _ => "[...]"
    | .obj _ => "\x7b...\x7d"

/-- Lines 146–148: the message of the `ValueError("Safety violation:
...")` raised on an unsafe verdict. -/
def safetyErrorMsg (viol : Option SafetyViolation) : String :=
  match viol with
  | some v => pyStr v.message
  | none => "Content safety validation failed"

/-- `GeminiGateway.generate_intervention` (lines 85–187) from the
average computation onward, with the two model-call outcomes as
parameters.  Failure of any stage surfaces as the `ValueError` message
produced by the `except` clauses. -/
def generateIntervention (req : InterventionRequest) (call : ProviderOutcome)
    (audit : ModelCall) : Except String InterventionPlan :=
  match promptDataAveragesOneShot req.scores with
  | .error e => .error e
  | .ok _ =>
    match call with
    | .raises m => .error ("Failed to generate intervention: " ++ m)
    | .returns r =>
      match validateContent DEFAULT_SAFETY_CONFIG audit with
      | (true, _) =>
        (match mkInterventionPlan (transformResponse r) with
          | .ok p => .ok p
          | .error e => .error ("Failed to generate intervention: " ++ e))
      | (false, viol) =>
        .error ("Failed to generate intervention: Safety violation: " ++ safetyErrorMsg viol)

/-! ## Retry policy — `tenacity` decorator on
`GeminiGateway.generate_intervention` (gateway.py lines 79–84) and
`CurriculumGateway.generate_curriculum_plan` (curriculum_gateway.py
line 42)

Both decorators are `@retry(stop=stop_after_attempt(1),
wait=wait_exponential(multiplier=1, min=4, max=10))`.  Tenacity
semantics (modelled from the library): attempts are numbered from 1; a
successful attempt returns; after a failed attempt the stop predicate
is consulted — if it fires, a `RetryError` wrapping the last exception
is raised (the default `reraise=False` does **not** re-raise the
original); otherwise the wait function of the just-failed attempt
number is slept and the next attempt runs. -/

/-- `stop_after_attempt(n)`: stop once `n` attempts have been made. -/
def stopAfterAttempt (maxAttempt attemptNumber : Nat) : Bool :=
  maxAttempt ≤ attemptNumber

/-- `wait_exponential(multiplier, max, exp_base=2, min)`:
`clamp(min, max, multiplier * 2 ^ (attemptNumber - 1))` seconds. -/
def waitExponential (multiplier minW maxW : ℚ) (attemptNumber : Nat) : ℚ :=
  max (max 0 minW) (min (multiplier * 2 ^ (attemptNumber - 1)) maxW)

/-- Result of running a tenacity-decorated call: the value or a
`RetryError` wrapping the last exception, together with the number of
attempts made and the backoff waits slept between attempts. -/
inductive RetryResult (E A : Type) where
  | ok (a : A) (attempts : Nat) (waits : List ℚ) : RetryResult E A
  | retryError (last : E) (attempts : Nat) (waits : List ℚ) : RetryResult E A
  deriving DecidableEq

/-- The attempt loop.  `fuel` bounds the recursion; the `0` case is
unreachable when the loop starts with `fuel = maxAttempt` because the
stop predicate fires at attempt `maxAttempt` at the latest. -/
def retryGo {E A : Type} (op : Nat → Except E A) (maxAttempt : Nat) (wait : Nat → ℚ) :
    Nat → Nat → List ℚ → RetryResult E A
  | 0, k, waits =>
    (match op k with
      | .ok a => .ok a k waits
      | .error e => .retryError e k waits)
  | fuel + 1, k, waits =>
    match op k with
    | .ok a => .ok a k waits
    | .error e =>
      if stopAfterAttempt maxAttempt k then .retryError e k waits
      else retryGo op maxAttempt wait fuel (k + 1) (waits ++ [wait k])

/-- A tenacity-decorated call: run attempts starting at 1. -/
def tenacityRetry {E A : Type} (maxAttempt : Nat) (wait : Nat → ℚ)
    (op : Nat → Except E A) : RetryResult E A :=
  retryGo op maxAttempt wait maxAttempt 1 []

/-- `stop_after_attempt(1)` — the attempt bound configured on both
gateways. -/
def geminiRetryMaxAttempts : Nat := 1

/-- `wait_exponential(multiplier=1, min=4, max=10)` — the backoff
configured on both gateways. -/
def geminiRetryWait : Nat → ℚ :=
  waitExponential 1 4 10

/-! ## The `/score` endpoint — `app/main.py` lines 54–75 -/

/-- Python exceptions relevant to the endpoint handler's dispatch:
`ValueError` (and subclasses), tenacity's `RetryError` (not a
`ValueError`), anything else. -/
inductive PyExc where
  | valueError (msg : String) : PyExc
  | retryError (last : PyExc) : PyExc
  | otherError (msg : String) : PyExc

/-- The decorated `generate_intervention` as called by the endpoint:
the single configured attempt runs, and a failure surfaces as
`RetryError` wrapping the `ValueError` the method raised. -/
def decoratedGenerateIntervention (req : InterventionRequest) (call : ProviderOutcome)
    (audit : ModelCall) : Except PyExc InterventionPlan :=
  match tenacityRetry geminiRetryMaxAttempts geminiRetryWait
      (fun _ => generateIntervention req call audit) with
  | .ok p _ _ => .ok p
  | .retryError e _ _ => .error (.retryError (.valueError e))

/-- The handler body of `generate_intervention_plan`: `except ValueError
→ HTTP 400`, `except Exception → HTTP 500`, success → 200. -/
def scoreHandler (result : Except PyExc InterventionPlan) : Nat × Option InterventionPlan :=
  match result with
  | .ok p => (200, some p)
  | .error (.valueError _) => (400, none)
  | .error _ => (500, none)

/-- `POST /score` end to end: FastAPI validates the body against
`InterventionRequest` and answers HTTP 422 on failure (framework
default, also asserted by `tests/unit/app/test_main.py`); a valid
request reaches the handler. -/
def scoreEndpoint (body : Except String InterventionRequest)
    (call : InterventionRequest → ProviderOutcome)
    (audit : InterventionRequest → ModelCall) : Nat × Option InterventionPlan :=
  match body with
  | .error _ => (422, none)
  | .ok req => scoreHandler (decoratedGenerateIntervention req (call req) (audit req))

/-! ## Prompt construction — `InterventionPrompt` in
`app/prompts/intervention.py`

`get_prompt` selects a template by provider tag (`BASE_TEMPLATE` for
unrecognized tags) and fills the placeholders with `str.format`.  The
placeholder values are modelled as already-rendered strings
(`PromptFields`): the `:.2f` float rendering of the averages and the
`json.dumps` of the pydantic schema / the worked example are opaque to
every claim.  The static template text is transcribed verbatim from
lines 195–289, split at the placeholders and at the per-area strategy
blocks.

Notably, `get_prompt` performs **no** lookup of
`InterventionPrompt.EMT_STRATEGIES` and contains no fallback text for
an unrecognized deficiency area: all four areas' strategy lines are
static parts of `BASE_TEMPLATE`, and the `deficient_area` value is
only interpolated into the three `\x7bdeficient_area\x7d` slots. -/

/-- The rendered values substituted for the template placeholders. -/
structure PromptFields where
  class_id : String
  num_students : String
  deficient_area : String
  emt1_avg : String
  emt2_avg : String
  emt3_avg : String
  emt4_avg : String
  schema : String
  exampleResponse : String

/-- Template text before `\x7bclass_id\x7d`. -/
def tplSeg0 : String :=
  "You are an expert Educational Intervention Specialist focusing on emotional intelligence development in children.\n\nTASK: Create a detailed intervention plan for a class showing difficulties in emotional recognition and expression.\n\nSAFETY GUIDELINES - CRITICAL:\n- Use ONLY positive, encouraging, and age-appropriate language\n- Focus on growth, learning, and development opportunities\n- Avoid any negative, harmful, or inappropriate content\n- Use simple language that children can understand\n- Ensure all activities are safe and suitable for the classroom\n- Promote inclusivity and respect for all students\n\nCLASS INFORMATION:\n- Class ID: "

/-- Between `\x7bclass_id\x7d` and `\x7bnum_students\x7d`. -/
def tplSeg1 : String := "\n- Number of Students: "

/-- Between `\x7bnum_students\x7d` and the first `\x7bdeficient_area\x7d`. -/
def tplSeg2 : String := "\n- Primary Area Needing Intervention: "

/-- Up to `\x7bemt1_avg:.2f\x7d`. -/
def tplSeg3 : String :=
  "\n\nCURRENT PERFORMANCE:\nEMT Score Averages:\n- EMT1 (Visual Emotion Matching): "

/-- Up to `\x7bemt2_avg:.2f\x7d`. -/
def tplSeg4 : String := "%\n- EMT2 (Situation-to-Expression): "

/-- Up to `\x7bemt3_avg:.2f\x7d`. -/
def tplSeg5 : String := "%\n- EMT3 (Expression Labeling): "

/-- Up to `\x7bemt4_avg:.2f\x7d`. -/
def tplSeg6 : String := "%\n- EMT4 (Label-to-Expression): "

/-- Header of the static strategy section, through the EMT1 heading. -/
def tplSeg7 : String :=
  "%\n\nEMT-SPECIFIC INTERVENTION STRATEGIES:\n\nEMT1 - Visual Emotion Recognition (Visual-to-visual matching):\nFocus: Visual Emotion Recognition\nProven Strategies:\n"

/-- The EMT1 proven-strategy lines (static template text). -/
def emt1StrategyLines : String :=
  "- Emotion flashcard pairs for matching practice\n- Mirror expression practice with emotion cards\n- Digital emotion matching games with progressive difficulty\n- Pattern recognition activities with facial expressions"

/-- EMT2 heading. -/
def tplSeg8 : String :=
  "\n\nEMT2 - Situation-to-Expression Connection (Verbal context to visual expression):\nFocus: Contextual Understanding\nProven Strategies:\n"

/-- The EMT2 proven-strategy lines. -/
def emt2StrategyLines : String :=
  "- Story-based emotion discussions with character analysis\n- Scenario cards with emotional contexts for matching\n- Role-playing emotional situations with expression practice\n- Situational emotion analysis activities"

/-- EMT3 heading. -/
def tplSeg9 : String :=
  "\n\nEMT3 - Expression Labeling (Visual to verbal labeling):\nFocus: Emotion Vocabulary Building\nProven Strategies:\n"

/-- The EMT3 proven-strategy lines. -/
def emt3StrategyLines : String :=
  "- Emotion word wall development and daily practice\n- Expression-label matching games and activities\n- Emotion vocabulary journals with daily entries\n- Vocabulary building through visual-verbal connections"

/-- EMT4 heading. -/
def tplSeg10 : String :=
  "\n\nEMT4 - Label-to-Expression Matching (Verbal label to visual expression):\nFocus: Emotion Label Comprehension\nProven Strategies:\n"

/-- The EMT4 proven-strategy lines. -/
def emt4StrategyLines : String :=
  "- Emotion word-to-face games and quick responses\n- Verbal emotion cues practice with audio support\n- Group emotion word activities and competitions\n- Label comprehension through interactive exercises"

/-- Instructions header, up to the second `\x7bdeficient_area\x7d`. -/
def tplSeg11 : String :=
  "\n\nINSTRUCTIONS:\n1. Focus primarily on the deficient area ("

/-- Up to `\x7bschema\x7d`. -/
def tplSeg12 : String :=
  ") using the proven strategies above\n2. Select 3-5 specific activities from the relevant EMT strategy set\n3. Adapt activities to be age-appropriate and engaging\n4. Include supporting activities from other EMT areas to maintain overall development\n5. Create a 4-week progressive implementation timeline\n6. Provide measurable success metrics specific to the deficient area\n\nYour response MUST be a valid JSON object matching this schema EXACTLY:\n"

/-- Up to `\x7bexample\x7d`. -/
def tplSeg13 : String :=
  "\n\nHere\x27s an example of a valid response structure (adapt content to the current situation):\n"

/-- Up to the third `\x7bdeficient_area\x7d`. -/
def tplSeg14 : String :=
  "\n\nIMPORTANT REQUIREMENTS:\n1. Return ONLY the JSON object, no other text\n2. Ensure the JSON structure matches the schema exactly\n3. Include at least 3 strategies (maximum 5)\n4. Make all strategies specific to the deficient area ("

/-- Tail of `BASE_TEMPLATE`. -/
def tplSeg15 : String :=
  ")\n5. Use the proven EMT-specific strategies provided above\n6. Include a 4-week timeline with progressive activities\n7. Provide measurable success metrics\n8. Double-check that your response is valid JSON\n9. ENSURE ALL CONTENT IS POSITIVE, SAFE, AND AGE-APPROPRIATE\n\nFocus on creating specific, actionable strategies that address the deficient area while maintaining development in other areas. All content must be suitable for teachers to use with children in educational settings."

/-- `BASE_TEMPLATE.format(**data)`: the template text with the
placeholders replaced by the rendered field values, grouped to the
right. -/
def BASE_TEMPLATE (d : PromptFields) : String :=
  tplSeg0 ++ (d.class_id ++ (tplSeg1 ++ (d.num_students ++ (tplSeg2 ++
    (d.deficient_area ++ (tplSeg3 ++ (d.emt1_avg ++ (tplSeg4 ++ (d.emt2_avg ++
    (tplSeg5 ++ (d.emt3_avg ++ (tplSeg6 ++ (d.emt4_avg ++ (tplSeg7 ++
    (emt1StrategyLines ++ (tplSeg8 ++ (emt2StrategyLines ++ (tplSeg9 ++
    (emt3StrategyLines ++ (tplSeg10 ++ (emt4StrategyLines ++ (tplSeg11 ++
    (d.deficient_area ++ (tplSeg12 ++ (d.schema ++ (tplSeg13 ++ (d.exampleResponse ++
    (tplSeg14 ++ (d.deficient_area ++ tplSeg15)))))))))))))))))))))))))))))

/-- The extra block `GEMINI_TEMPLATE` appends to `BASE_TEMPLATE`. -/
def geminiFinalCheck : String :=
  "\nFINAL CHECK:\n1. Your response must start with an opening curly brace\n2. Your response must end with a closing curly brace\n3. Use double quotes for all strings\n4. No trailing commas\n5. No comments or additional text"

/-- The extra block `OPENAI_TEMPLATE` appends to `BASE_TEMPLATE`. -/
def openaiNote : String :=
  "\nNote: Format your response as a JSON object without any additional text or explanation."

/-- `InterventionPrompt.get_prompt` (lines 291–312): select the
provider's template, defaulting to `BASE_TEMPLATE` for unrecognized
providers, and format it with the data. -/
def getPrompt (provider : String) (d : PromptFields) : String :=
  if provider = "gemini" then BASE_TEMPLATE d ++ geminiFinalCheck
  else if provider = "openai" then BASE_TEMPLATE d ++ openaiNote
  else BASE_TEMPLATE d

/-- Substring containment: `pat` occurs contiguously in `s`. -/
def strContains (s pat : String) : Prop :=
  ∃ a b : String, s = a ++ (pat ++ b)

/-! ## Concrete fixtures used by counterexamples and witnesses

The score lists are the end-to-end scenario of the spec (§8); the
provider response is a well-formed object that supplies only weeks 2
and 4. -/

/-- The §8 scenario scores: all four lists nonempty and in range. -/
def scoresOk : EMTScores :=
  ⟨[80, 82, 85, 83, 81], [25, 30, 28, 32, 29], [75, 78, 80, 77, 79], [70, 72, 68, 71, 69]⟩

/-- Scores with every list empty — accepted by the pydantic validator
(`all` over an empty list holds). -/
def scoresEmpty : EMTScores := ⟨[], [], [], []⟩

/-- Valid class metadata with deficiency area EMT2. -/
def metadataOk : ClassMetadata := ⟨"CLASS_5A_2024", "EMT2", 20⟩

/-- A fully valid intervention request. -/
def reqOk : InterventionRequest := ⟨scoresOk, metadataOk⟩

/-- A request whose score lists are all empty (still schema-valid). -/
def reqEmptyScores : InterventionRequest := ⟨scoresEmpty, metadataOk⟩

/-- Audit-call outcome: the safety model answers with a safe verdict. -/
def auditSafe : ModelCall := .returns "\x7b\"is_safe\": true\x7d"

/-- One well-formed provider strategy entry. -/
def providerStrategyA : ProviderStrategy :=
  ⟨some "Emotion Flashcard Pairs",
   some ["Use emotion flashcard pairs for matching practice"],
   some ["Improved matching accuracy"]⟩

/-- A provider response that supplies only weeks 2 and 4 of the
timeline. -/
def respSparseWeeks : ProviderResponse :=
  ⟨"CLASS_5A_2024", 20, "EMT2", [providerStrategyA],
   [⟨2, some ["Practice with scenarios"]⟩, ⟨4, some ["Assessment and review"]⟩],
   ["15% improvement in EMT2 scores", "Increased confidence"]⟩

/-- One canonical strategy value, for building plans of a given size. -/
def stratFixture : InterventionStrategy :=
  ⟨"Emotion Word Wall", ["Create display"], ["Better vocabulary"], "20 minutes daily", ["Cards"]⟩

/-- A canonical plan with `n` strategies. -/
def planWith (n : Nat) : InterventionPlan :=
  ⟨"Analysis text", List.replicate n stratFixture,
   [("week1", ["Setup"]), ("week2", ["Practice"]), ("week3", ["Review"]), ("week4", ["Assess"])],
   ⟨["15% improvement"], ["More confidence"], ["Weekly assessments"]⟩⟩

/-- Prompt fields with an unrecognized deficiency-area code. -/
def promptFieldsUnknownArea : PromptFields :=
  ⟨"CLASS_5A_2024", "20", "EMT9", "82.20", "28.80", "77.80", "70.00", "<schema>", "<example>"⟩

/-! ## Helper lemmas -/

theorem strAppend_assoc (a b c : String) : (a ++ b) ++ c = a ++ (b ++ c) := by
  apply String.ext
  simp [String.data_append]

theorem strContains_base (pat b : String) : strContains (pat ++ b) pat :=
  ⟨"", b, rfl⟩

theorem strContains_cons (x : String) {t pat : String} (h : strContains t pat) :
    strContains (x ++ t) pat := by
  obtain ⟨a, b, hab⟩ := h
  exact ⟨x ++ a, b, by rw [hab, strAppend_assoc]⟩

theorem strContains_appL {s pat : String} (y : String) (h : strContains s pat) :
    strContains (s ++ y) pat := by
  obtain ⟨a, b, hab⟩ := h
  exact ⟨a, b ++ y, by rw [hab, strAppend_assoc, strAppend_assoc]⟩

theorem pyFind_of_not_mem {s : String} {c : Char} (h : c ∉ s.toList) :
    pyFind s c = -1 := by
  have hnone : List.findIdx? (fun x => decide (x = c)) s.data = none := by
    rw [List.findIdx?_eq_none_iff]
    intro x hx
    have hxc : x ≠ c := fun e => h (e ▸ hx)
    simp [hxc]
  simp [pyFind, String.toList, hnone]

theorem pyDictFold_eq (l : List (String × List String)) :
    ∀ acc : List (String × List String),
      ((acc.map Prod.fst) ++ (l.map Prod.fst)).Nodup →
      l.foldl (fun m kv => pyDictInsert m kv.1 kv.2) acc = acc ++ l := by
  induction l with
  | nil => intro acc _; simp
  | cons kv t ih =>
    intro acc h
    have hk : ¬ acc.any (fun p => p.1 = kv.1) = true := by
      simp only [List.any_eq_true, decide_eq_true_eq]
      rintro ⟨p, hp, hpk⟩
      rw [List.map_cons, List.nodup_append] at h
      exact h.2.2 (List.mem_map_of_mem Prod.fst hp) (by simp [hpk])
    have hinsert : pyDictInsert acc kv.1 kv.2 = acc ++ [kv] := by
      unfold pyDictInsert
      rw [if_neg hk]
    rw [List.foldl_cons, hinsert, ih (acc ++ [kv]) (by simpa using h)]
    simp

theorem pyDict_eq_of_nodup (l : List (String × List String))
    (h : (l.map Prod.fst).Nodup) : pyDict l = l := by
  have := pyDictFold_eq l [] (by simpa using h)
  simpa [pyDict] using this

/-! ## Claim theorems -/

/-- C2 (counterexample): the retry decorator on both gateways is
`stop_after_attempt(1)` — the fixed maximum attempt count is 1, not
greater than one; with an always failing operation exactly one attempt
runs, no backoff wait is applied, and the error is wrapped in a
`RetryError`. -/
theorem retry_single_attempt_cx :
    geminiRetryMaxAttempts = 1 ∧ ¬ 1 < geminiRetryMaxAttempts ∧
    tenacityRetry geminiRetryMaxAttempts geminiRetryWait
        (fun _ => (.error "API down" : Except String Unit)) =
      .retryError "API down" 1 [] :=
  ⟨rfl, by decide, rfl⟩

/-- C2 (amended): the one-shot provider call is wrapped in a retry
policy whose fixed maximum attempt count is exactly one, so the
configured capped exponential backoff is never applied (no waits), and
when the single attempt fails its error is propagated wrapped in a
`RetryError` with no further retry. -/
theorem retry_policy_amended {A : Type} (op : Nat → Except String A) :
    geminiRetryMaxAttempts = 1 ∧
    (∀ a, op 1 = .ok a →
      tenacityRetry geminiRetryMaxAttempts geminiRetryWait op = .ok a 1 []) ∧
    (∀ e, op 1 = .error e →
      tenacityRetry geminiRetryMaxAttempts geminiRetryWait op = .retryError e 1 []) := by
  refine ⟨rfl, ?_, ?_⟩ <;> intro x h <;>
    simp [tenacityRetry, retryGo, h, stopAfterAttempt, geminiRetryMaxAttempts]

/-- C2 (witness): the amended retry theorem applied to a concretely
failing operation. -/
theorem retry_policy_amended_witness :
    tenacityRetry geminiRetryMaxAttempts geminiRetryWait
        (fun _ => (.error "boom" : Except String Unit)) =
      .retryError "boom" 1 [] :=
  (retry_policy_amended (fun _ => (.error "boom" : Except String Unit))).2.2 "boom" rfl

/-- C6 (counterexample): the raw text `"3"` contains no braces at all,
yet extraction succeeds (the strict `json.loads` pass accepts any JSON
value), so "for every raw text containing no braces extraction fails
with a ParseError" is false. -/
theorem extract_no_brace_success_cx :
    extractJson "3" = .ok (.num 3) ∧
    '{' ∉ "3".toList ∧ '}' ∉ "3".toList :=
  ⟨rfl, by decide, by decide⟩

/-- C6 (amended): extraction first attempts a strict parse of the raw
text; on failure it parses the substring from the first opening brace
to the last closing brace, inclusive; every raw text that fails the
strict parse and contains no braces fails with a `ParseError` carrying
the raw text; a well-formed object wrapped in conversational text
parses to that object. -/
theorem extract_algorithm_amended :
    (∀ s j, pythonJsonLoads s = some j → extractJson s = .ok j) ∧
    (∀ s : String, pythonJsonLoads s = none → '{' ∉ s.toList → '}' ∉ s.toList →
      extractJson s = .error (.noJson s)) ∧
    extractJson "Sure, here you go: \x7b\"a\":1\x7d Thanks!" = .ok (.obj [("a", .num 1)]) := by
  refine ⟨?_, ?_, rfl⟩
  · intro s j h
    simp [extractJson, h]
  · intro s hparse hl _
    have hfind : pyFind s '{' = -1 := pyFind_of_not_mem hl
    simp only [extractJson, hparse, hfind]
    norm_num

/-- C6 (witness): the amended extraction theorem applied to a strict
JSON object and to brace-free prose. -/
theorem extract_algorithm_amended_witness :
    extractJson "\x7b\"a\": 1\x7d" = .ok (.obj [("a", .num 1)]) ∧
    extractJson "no valid json here" = .error (.noJson "no valid json here") :=
  ⟨extract_algorithm_amended.1 "\x7b\"a\": 1\x7d" (.obj [("a", .num 1)]) rfl,
   extract_algorithm_amended.2.1 "no valid json here" rfl (by decide) (by decide)⟩

/-- C8 (confirmed): for a finite chunk sequence yielded by the model
stream followed by normal completion, `event_stream` emits exactly one
token frame per chunk, in order, then exactly one complete frame, and
nothing else. -/
theorem stream_frames_exact (chunks : List String) :
    eventStream chunks = chunks.map Frame.token ++ [Frame.complete] := by
  induction chunks with
  | nil => rfl
  | cons c rest ih => simp [eventStream, ih]

/-- C10 (confirmed): the shape transformation sets the constant fields
unconditionally — every strategy of the produced plan has the fixed
time allocation and resource list, and the assessment methods are the
fixed list, for every parsed provider response. -/
theorem transform_constant_fields (r : ProviderResponse) :
    (∀ s ∈ (transformResponse r).strategies,
        s.time_allocation = "30 minutes per session" ∧
        s.resources = ["Emotion cards", "Activity materials"]) ∧
    (transformResponse r).success_metrics.assessment_methods =
      ["Weekly assessments", "Observation records", "Student feedback"] := by
  constructor
  · intro s hs
    simp only [transformResponse, List.mem_map] at hs
    obtain ⟨t, _, rfl⟩ := hs
    exact ⟨rfl, rfl⟩
  · rfl

/-- C10 (witness): the constant-field theorem applied to the concrete
sparse-weeks provider response and its first strategy. -/
theorem transform_constant_fields_witness :
    ((transformResponse respSparseWeeks).strategies.getD 0 stratFixture).time_allocation =
      "30 minutes per session" ∧
    ((transformResponse respSparseWeeks).strategies.getD 0 stratFixture).resources =
      ["Emotion cards", "Activity materials"] :=
  (transform_constant_fields respSparseWeeks).1 _ (by decide)

/-- C1 (counterexample): a schema-valid request whose score lists are
all empty.  On the one-shot path the prompt-data computation divides by
zero (surfaced as the wrapped `ValueError`), instead of defining the
averages as `0.0`; the streaming path does define them as `0.0`. -/
theorem oneshot_empty_scores_divzero_cx :
    promptDataAveragesOneShot scoresEmpty =
      .error "Failed to generate intervention: division by zero" ∧
    emtScoresValid scoresEmpty ∧
    promptDataAveragesStreaming scoresEmpty = (0, 0, 0, 0) :=
  ⟨rfl, by simp [emtScoresValid, scoresEmpty], rfl⟩

/-- C1 (amended): on the streaming path each dimension's average is the
arithmetic mean of its score list and exactly `0.0` for an empty list
(no division by zero); on the one-shot path the average is the plain
mean, computed only when every list is nonempty — an empty list makes
the whole generation fail with a division-by-zero error instead of
using `0.0`. -/
theorem avg_semantics_amended :
    streamAvg [] = 0 ∧
    (∀ l : List ℚ, l ≠ [] → streamAvg l = listMean l) ∧
    (∀ s : EMTScores, s.EMT1 ≠ [] → s.EMT2 ≠ [] → s.EMT3 ≠ [] → s.EMT4 ≠ [] →
      promptDataAveragesOneShot s =
        .ok (listMean s.EMT1, listMean s.EMT2, listMean s.EMT3, listMean s.EMT4)) ∧
    (∀ req : InterventionRequest, ∀ call audit, req.scores.EMT1 = [] →
      generateIntervention req call audit =
        .error "Failed to generate intervention: division by zero") := by
  refine ⟨rfl, ?_, ?_, ?_⟩
  · intro l hl
    simp [streamAvg, List.isEmpty_iff, hl, listMean]
  · intro s h1 h2 h3 h4
    simp [promptDataAveragesOneShot, List.isEmpty_iff, h1, h2, h3, h4]
  · intro req call audit h
    simp [generateIntervention, promptDataAveragesOneShot, List.isEmpty_iff, h]

/-- C1 (witness): the amended averages theorem applied to the §8
scenario scores and to the empty-scores request. -/
theorem avg_semantics_amended_witness :
    streamAvg [(80 : ℚ)] = listMean [(80 : ℚ)] ∧
    promptDataAveragesOneShot scoresOk =
      .ok (listMean scoresOk.EMT1, listMean scoresOk.EMT2,
           listMean scoresOk.EMT3, listMean scoresOk.EMT4) ∧
    generateIntervention reqEmptyScores (.raises "ignored") auditSafe =
      .error "Failed to generate intervention: division by zero" :=
  ⟨avg_semantics_amended.2.1 _ (by decide),
   avg_semantics_amended.2.2.1 scoresOk (by decide) (by decide) (by decide) (by decide),
   avg_semantics_amended.2.2.2 reqEmptyScores _ _ rfl⟩

/-- C3 (confirmed): the safety validator fails closed.  With the audit
enabled: a raised model call, an empty response, and unparseable or
non-dict verdict text each yield `safe = false` with the generic
violation message; `safe = true` is only ever produced by a parsed
dict verdict whose `is_safe` entry is truthy.  The explicit
configuration toggle (`enabled = false`) is the only path that marks
every candidate safe. -/
theorem safety_validator_fail_closed :
    (∀ cfg : SafetyConfig, ∀ m, cfg.enabled = true →
      validateContent cfg (.raises m) =
        (false, some ⟨.str "Safety validation failed", .str "Contact administrator"⟩)) ∧
    (∀ cfg : SafetyConfig, cfg.enabled = true →
      validateContent cfg (.returns "") =
        (false, some ⟨.str "Safety validation failed", .str "Retry the request"⟩)) ∧
    (∀ cfg : SafetyConfig, ∀ t, cfg.enabled = true → t ≠ "" →
      (∀ fields, pythonJsonLoads (cleanJson t) ≠ some (.obj fields)) →
      validateContent cfg (.returns t) =
        (false, some ⟨.str "Safety validation failed", .str "Contact administrator"⟩)) ∧
    (∀ cfg : SafetyConfig, ∀ c, cfg.enabled = true → (validateContent cfg c).1 = true →
      ∃ t fields, c = .returns t ∧ t ≠ "" ∧
        pythonJsonLoads (cleanJson t) = some (.obj fields) ∧
        jsonTruthy (jsonGetD fields "is_safe" (.bool false)) = true) ∧
    (∀ cfg : SafetyConfig, ∀ c, cfg.enabled = false → validateContent cfg c = (true, none)) := by
  refine ⟨?_, ?_, ?_, ?_, ?_⟩
  · intro cfg m henb
    simp [validateContent, henb]
  · intro cfg henb
    simp [validateContent, henb]
  · intro cfg t henb hne hobj
    rcases e : pythonJsonLoads (cleanJson t) with _ | j
    · simp [validateContent, henb, hne, e]
    · cases j with
      | obj fields => exact absurd e (hobj fields)
      | _ => simp [validateContent, henb, hne, e]
  · intro cfg c henb h
    cases c with
    | raises m => simp [validateContent, henb] at h
    | returns t =>
      by_cases ht : t = ""
      · subst ht; simp [validateContent, henb] at h
      · rcases e : pythonJsonLoads (cleanJson t) with _ | j
        · simp [validateContent, henb, ht, e] at h
        · cases j with
          | obj fields =>
            by_cases hs : jsonTruthy (jsonGetD fields "is_safe" (.bool false)) = true
            · exact ⟨t, fields, rfl, ht, e, hs⟩
            · simp [validateContent, henb, ht, e, hs] at h
          | _ => simp [validateContent, henb, ht, e] at h
  · intro cfg c hdis
    simp [validateContent, hdis]

/-- C3 (witness): the fail-closed theorem applied to a raising call,
an empty response, unparseable prose, and the disabled configuration. -/
theorem safety_validator_fail_closed_witness :
    validateContent DEFAULT_SAFETY_CONFIG (.raises "network fault") =
      (false, some ⟨.str "Safety validation failed", .str "Contact administrator"⟩) ∧
    validateContent DEFAULT_SAFETY_CONFIG (.returns "") =
      (false, some ⟨.str "Safety validation failed", .str "Retry the request"⟩) ∧
    validateContent DEFAULT_SAFETY_CONFIG (.returns "I think it is fine") =
      (false, some ⟨.str "Safety validation failed", .str "Contact administrator"⟩) ∧
    validateContent ⟨false, false⟩ (.raises "any fault") = (true, none) := by
  refine ⟨safety_validator_fail_closed.1 _ "network fault" rfl,
          safety_validator_fail_closed.2.1 _ rfl,
          safety_validator_fail_closed.2.2.1 _ "I think it is fine" rfl (by decide) ?_,
          safety_validator_fail_closed.2.2.2.2 _ _ rfl⟩
  intro fields hcontra
  have hev : pythonJsonLoads (cleanJson "I think it is fine") = none := rfl
  rw [hev] at hcontra
  exact Option.noConfusion hcontra

/-- C4 (counterexample): with a parsed provider object supplying only
weeks 2 and 4, the pipeline succeeds and returns a canonical plan whose
timeline holds exactly the keys `week2` and `week4` — `week1` (and
`week3`) are absent, so the plan does not contain all four week keys. -/
theorem timeline_sparse_weeks_cx :
    generateIntervention reqOk (.returns respSparseWeeks) auditSafe =
      .ok (transformResponse respSparseWeeks) ∧
    (transformResponse respSparseWeeks).timeline.map Prod.fst = ["week2", "week4"] ∧
    "week1" ∉ (transformResponse respSparseWeeks).timeline.map Prod.fst :=
  ⟨rfl, rfl, by decide⟩

/-- C4 (amended): the canonical plan's timeline holds exactly one
`week{n}` key per provider-supplied timeline entry, in order, with no
filling of missing weeks: when the provider's week keys are distinct
the timeline is precisely the renamed provider list. -/
theorem timeline_keys_amended (r : ProviderResponse)
    (h : (r.timeline.map (fun w => "week" ++ toString w.week)).Nodup) :
    (transformResponse r).timeline =
      r.timeline.map (fun w => ("week" ++ toString w.week, w.activities.getD [])) := by
  show pyDict (r.timeline.map (fun w => ("week" ++ toString w.week, w.activities.getD []))) = _
  apply pyDict_eq_of_nodup
  simpa [List.map_map, Function.comp] using h

/-- C4 (witness): the amended timeline theorem applied to the concrete
sparse-weeks provider response. -/
theorem timeline_keys_amended_witness :
    (transformResponse respSparseWeeks).timeline =
      respSparseWeeks.timeline.map (fun w => ("week" ++ toString w.week, w.activities.getD [])) :=
  timeline_keys_amended respSparseWeeks (by decide)

/-- C5 (counterexample): a request-body validation failure is answered
with HTTP 422 (FastAPI's default), not 400; a pipeline failure after a
valid request is answered with HTTP 500. -/
theorem score_status_codes_cx :
    scoreEndpoint (.error "field required: metadata") (fun _ => .raises "unused")
        (fun _ => auditSafe) = (422, none) ∧
    (422 : Nat) ≠ 400 ∧
    scoreEndpoint (.ok reqOk) (fun _ => .raises "API timeout")
        (fun _ => auditSafe) = (500, none) :=
  ⟨rfl, by decide, rfl⟩

/-- C5 (amended): `POST /score` returns HTTP 422 exactly when request
validation fails (FastAPI default); every pipeline failure after a
valid request — provider fault, parse failure, safety rejection,
schema violation, all raised as `ValueError` and wrapped into
tenacity's `RetryError` — is caught by the generic handler and
answered with HTTP 500 (the handler's `except ValueError → 400` branch
is unreachable from the decorated gateway call); success returns 200
with the plan. -/
theorem score_status_codes_amended (body : Except String InterventionRequest)
    (call : InterventionRequest → ProviderOutcome)
    (audit : InterventionRequest → ModelCall) :
    (∀ e, body = .error e → scoreEndpoint body call audit = (422, none)) ∧
    (∀ req e, body = .ok req →
      generateIntervention req (call req) (audit req) = .error e →
      scoreEndpoint body call audit = (500, none)) ∧
    (∀ req p, body = .ok req →
      generateIntervention req (call req) (audit req) = .ok p →
      scoreEndpoint body call audit = (200, some p)) := by
  refine ⟨?_, ?_, ?_⟩
  · intro e h
    subst h
    rfl
  · intro req e hb hg
    subst hb
    simp [scoreEndpoint, scoreHandler, decoratedGenerateIntervention, tenacityRetry,
          retryGo, geminiRetryMaxAttempts, stopAfterAttempt, hg]
  · intro req p hb hg
    subst hb
    simp [scoreEndpoint, scoreHandler, decoratedGenerateIntervention, tenacityRetry,
          retryGo, geminiRetryMaxAttempts, stopAfterAttempt, hg]

/-- C5 (witness): the amended status-code theorem applied to an invalid
body, a provider fault, and a successful pipeline run. -/
theorem score_status_codes_amended_witness :
    scoreEndpoint (.error "invalid body") (fun _ => .raises "x") (fun _ => auditSafe) =
      (422, none) ∧
    scoreEndpoint (.ok reqOk) (fun _ => .raises "API fault") (fun _ => auditSafe) =
      (500, none) ∧
    scoreEndpoint (.ok reqOk) (fun _ => .returns respSparseWeeks) (fun _ => auditSafe) =
      (200, some (transformResponse respSparseWeeks)) :=
  ⟨(score_status_codes_amended _ _ _).1 "invalid body" rfl,
   (score_status_codes_amended _ _ _).2.1 reqOk
     "Failed to generate intervention: API fault" rfl rfl,
   (score_status_codes_amended _ _ _).2.2 reqOk _ rfl rfl⟩

/-- C7 (confirmed): the final schema gate rejects canonical plans with
0 or 6 strategies and accepts plans with 1 or 5; consequently every
plan the pipeline returns holds between 1 and 5 strategies. -/
theorem plan_strategy_bounds :
    mkInterventionPlan (planWith 0) =
      .error "validation error for InterventionPlan: strategies" ∧
    mkInterventionPlan (planWith 6) =
      .error "validation error for InterventionPlan: strategies" ∧
    mkInterventionPlan (planWith 1) = .ok (planWith 1) ∧
    mkInterventionPlan (planWith 5) = .ok (planWith 5) ∧
    (∀ req call audit p, generateIntervention req call audit = .ok p →
      1 ≤ p.strategies.length ∧ p.strategies.length ≤ 5) := by
  refine ⟨rfl, rfl, rfl, rfl, ?_⟩
  intro req call audit p h
  rcases hpd : promptDataAveragesOneShot req.scores with e | pd
  · simp [generateIntervention, hpd] at h
  · cases call with
    | raises m => simp [generateIntervention, hpd] at h
    | returns r =>
      rcases hv : validateContent DEFAULT_SAFETY_CONFIG audit with ⟨b, viol⟩
      cases b
      · simp [generateIntervention, hpd, hv] at h
      · by_cases hval : interventionPlanValid (transformResponse r) = true
        · have hmk : mkInterventionPlan (transformResponse r) = .ok (transformResponse r) := by
            simp [mkInterventionPlan, hval]
          simp [generateIntervention, hpd, hv, hmk] at h
          have hval' := hval
          simp only [interventionPlanValid, Bool.and_eq_true, decide_eq_true_eq] at hval'
          exact h ▸ hval'
        · have hmk : mkInterventionPlan (transformResponse r) =
              .error "validation error for InterventionPlan: strategies" := by
            simp [mkInterventionPlan, hval]
          simp [generateIntervention, hpd, hv, hmk] at h

/-- C7 (witness): the bounds theorem applied to a concrete successful
pipeline run. -/
theorem plan_strategy_bounds_witness :
    1 ≤ (transformResponse respSparseWeeks).strategies.length ∧
    (transformResponse respSparseWeeks).strategies.length ≤ 5 :=
  plan_strategy_bounds.2.2.2.2 reqOk (.returns respSparseWeeks) auditSafe _ rfl

/-- C9 (counterexample): for the unrecognized deficiency-area code
`EMT9`, the built prompt still contains the EMT1-specific proven
strategy lines verbatim (all four areas' strategy text is baked into
the template), contradicting "no area-specific strategy names" for
unrecognized codes; no failure occurs. -/
theorem prompt_unknown_area_cx :
    strContains (getPrompt "gemini" promptFieldsUnknownArea) emt1StrategyLines ∧
    promptFieldsUnknownArea.deficient_area = "EMT9" := by
  constructor
  · show strContains (BASE_TEMPLATE promptFieldsUnknownArea ++ geminiFinalCheck) _
    apply strContains_appL
    unfold BASE_TEMPLATE
    repeat first | exact strContains_base _ _ | apply strContains_cons
  · rfl

/-- C9 (amended): for every deficiency-area code — recognized or not —
and every provider tag, the built prompt contains all four areas'
proven strategy lines verbatim, because they are static template text;
there is no knowledge-base lookup and no fallback notice, and an
unrecognized code never fails (it is only interpolated into the
prompt). -/
theorem prompt_contains_all_area_strategies (provider : String) (d : PromptFields) :
    strContains (getPrompt provider d) emt1StrategyLines ∧
    strContains (getPrompt provider d) emt2StrategyLines ∧
    strContains (getPrompt provider d) emt3StrategyLines ∧
    strContains (getPrompt provider d) emt4StrategyLines := by
  have base : ∀ pat, strContains (BASE_TEMPLATE d) pat →
      strContains (getPrompt provider d) pat := by
    intro pat h
    unfold getPrompt
    split
    · exact strContains_appL _ h
    · split
      · exact strContains_appL _ h
      · exact h
  refine ⟨base _ ?_, base _ ?_, base _ ?_, base _ ?_⟩ <;>
    (unfold BASE_TEMPLATE;
     repeat first | exact strContains_base _ _ | apply strContains_cons)

end Seal
